import Mathlib

/-!
Verification of the cluster lifecycle workflows in
`src/vibe_core/vibe_core/cli/remote.py` (FarmVibes.AI remote cluster CLI).

The Python module is shallowly embedded as follows: every external boundary
call (Azure CLI wrapper, Terraform wrapper, Kubectl wrapper, interactive
prompts, local filesystem probes) is an oracle recorded in an `Env` value,
whose result is either a normal return (`Res.ok`) or a raised exception
(`Res.exn`).  Each workflow entry point becomes a function from `Env` (plus
its ordinary arguments) to a pair of a result — `Res.ok b` for a normal
boolean return, `Res.exn e` for an exception escaping the entry point — and
the ordered list of observable events (log lines with their level, boundary
calls issued, files written or removed, workspace acquisition and release,
and entries into the `destroy` workflow with the `destroy_rg` flag passed).
-/

/-- Result of a Python call: a normal return or a raised exception. -/
inductive Res (α : Type) where
  | ok : α → Res α
  | exn : String → Res α
deriving DecidableEq, Repr

/-- Log levels used by the `log` helper of the CLI. -/
inductive Level where
  | error
  | warning
  | info
  | debug
deriving DecidableEq, Repr

/-- Boundary calls the workflows can issue (Azure CLI, Terraform, Kubectl). -/
inductive Call where
  | refreshAksCredentials
  | getKubernetesConfigContext
  | urlFromIngress
  | getUrlFromTerraformOutput
  | refreshAzCreds
  | checkResourceProviders
  | getCurrentCoreCount
  | verifyEnoughCores
  | getCurrentUserName
  | clusterExists
  | getSubscriptionAndTenantId
  | ensureResourceGroup
  | ensureAzurermBackend
  | inferRegistryCredentials
  | ensureInfra
  | ensureK8sCluster
  | ensureServices
  | resourceGroupExists
  | listResources
  | deleteResources
  | deleteResourceGroup
deriving DecidableEq, Repr

/-- Observable events of one workflow run, in program order. -/
inductive Event where
  | log (lvl : Level) (msg : String)
  | call (c : Call)
  | writeFile (path : String) (content : String)
  | removeFile (path : String)
  | wsAcquire (name : String)
  | wsRelease (name : String)
  | destroyInvoked (destroy_rg : Bool)
deriving DecidableEq, Repr

/-- Behaviour of every external boundary during one run.  A `Res` field set
to `Res.exn e` means the corresponding boundary call raises exception `e`
when issued. -/
structure Env where
  in_wsl : Bool
  is_file_in_mount : Bool
  refresh_aks_credentials : Res Unit
  get_kubernetes_config_context : Res String
  url_from_ingress : Res String
  get_url_from_terraform_output : Res String
  refresh_az_creds : Res Unit
  check_resource_providers : Res Unit
  get_current_core_count : Res (Nat × Nat)
  verify_enough_cores_available : Res Unit
  get_current_user_name : Res String
  cluster_exists : Res Bool
  confirm_delete_existing : Bool
  confirm_keep_cluster : Bool
  get_subscription_and_tenant_id : Res (String × String)
  ensure_resource_group : Res Bool
  ensure_azurerm_backend : Res (String × String × String)
  infer_registry_credentials : Res (String × String)
  ensure_infra : Res (List (String × String))
  ensure_k8s_cluster : Res (List (String × String))
  ensure_services : Res Unit
  resource_group_exists : Res Bool
  list_resources : Res (List String)
  delete_resources : Res Unit
  delete_resource_group : Res Unit
  kubeconfig_isfile : Bool
  terraform_dir_files : List String

/-- Arguments of `setup_or_upgrade` (the `az` wrapper contributes
`cluster_name` and `resource_group`). -/
structure Args where
  cluster_name : String
  resource_group : String
  region : String
  certificate_email : String
  registry_path : String
  registry_username : String
  registry_password : String
  image_pfx : String
  image_tag : String
  log_level : String
  is_update : Bool
  max_worker_nodes : Nat
  worker_replicas : Nat

/-- Modelled from the spec: the managed registry domain
(`AZURE_CR_DOMAIN` in `vibe_core.cli.constants`, not under `src/`). -/
def AZURE_CR_DOMAIN : String := ".azurecr.io"

/-- Modelled from the spec: name of the persisted URL file
(`REMOTE_SERVICE_URL_PATH_FILE` in `vibe_core.cli.constants`). -/
def REMOTE_SERVICE_URL_PATH_FILE : String := "service_url"

/-- Modelled from the spec: `os_artifacts.config_file` resolves a file name
inside the local config directory. -/
def configFile (name : String) : String := "config/" ++ name

/-- Sequencing of a sub-run with a continuation: exceptions propagate, the
events of the first part come first. -/
def wseq {α β : Type} (x : Res α × List Event) (k : α → Res β × List Event) :
    Res β × List Event :=
  match x with
  | (Res.ok a, t) => ((k a).1, t ++ (k a).2)
  | (Res.exn e, t) => (Res.exn e, t)

/-- Issue one boundary call: the call event is recorded, then either the
continuation runs on the returned value or the exception propagates. -/
def wcall {α β : Type} (c : Call) (r : Res α) (k : α → Res β × List Event) :
    Res β × List Event :=
  match r with
  | Res.ok a => ((k a).1, Event.call c :: (k a).2)
  | Res.exn e => (Res.exn e, [Event.call c])

/-- Prepend already-produced events to a sub-run. -/
def wthen {β : Type} (t : List Event) (k : Res β × List Event) :
    Res β × List Event :=
  (k.1, t ++ k.2)

theorem wcall_ok {α β : Type} (c : Call) (a : α)
    (k : α → Res β × List Event) :
    wcall c (Res.ok a) k = ((k a).1, Event.call c :: (k a).2) := rfl

theorem wcall_exn {α β : Type} (c : Call) (e : String)
    (k : α → Res β × List Event) :
    wcall c (Res.exn e) k = (Res.exn e, [Event.call c]) := rfl

/-- Python `url.replace(chr(34), "")`: remove every double-quote character. -/
def stripQuotes (u : String) : String :=
  String.mk (u.data.filter (fun c => c ≠ '"'))

/-- Python `s.endswith(suf)` on strings, as a suffix test on the character
lists. -/
def pyEndsWith (s suf : String) : Bool := suf.data.isSuffixOf s.data

/-- Tail of `status` once a URL was obtained (remote.py lines 37-50):
strip quotes, persist the URL, log it, and warn when it came from the stale
Terraform-output fallback. -/
def statusFinish (stale : Bool) (url : String) : Res Bool × List Event :=
  (Res.ok true,
    [Event.writeFile (configFile REMOTE_SERVICE_URL_PATH_FILE) (stripQuotes url),
     Event.log Level.info ("URL for your AKS Cluster is: " ++ stripQuotes url)]
    ++ (if stale then
          [Event.log Level.warning
            ("We failed to get the URL from the cluster. "
              ++ "The URL above might be incorrect, as we might have read it "
              ++ "from old Terraform state. Please check the URL above and if "
              ++ "it is incorrect, please run farmvibes-ai remote update.")]
        else []))

/-- Embedding of `status` (remote.py lines 11-50). -/
def statusRun (env : Env) (cluster_name resource_group : String) :
    Res Bool × List Event :=
  if env.in_wsl && env.is_file_in_mount then
    (Res.ok false,
      [Event.log Level.error
        ("Show URL command does not run correctly when run within WSL due AZ "
          ++ "context issues. Execute this script with the show_url option on "
          ++ "your Windows prompt to get the URL")])
  else
    wthen [Event.log Level.debug "Refreshing AKS credentials..."] <|
    wcall Call.refreshAksCredentials env.refresh_aks_credentials fun _ =>
    wcall Call.getKubernetesConfigContext env.get_kubernetes_config_context fun _ =>
    wthen [Event.log Level.info
      ("Getting URL from ingress for cluster " ++ cluster_name ++ "...")] <|
    wcall Call.urlFromIngress env.url_from_ingress fun url =>
      if url = "" then
        wcall Call.getUrlFromTerraformOutput env.get_url_from_terraform_output
          fun url2 =>
            if url2 = "" then
              (Res.ok false,
                [Event.log Level.error "Couldnt get URL for your AKS Cluster"])
            else statusFinish true url2
      else statusFinish false url

/-- Local cleanup tail of `destroy` (remote.py lines 282-291): remove the
kubeconfig file when present, remove every file of the Terraform directory,
then report success. -/
def destroyCleanup (env : Env) : Res Bool × List Event :=
  (Res.ok true,
    (if env.kubeconfig_isfile then [Event.removeFile (configFile "kubeconfig")]
     else [])
    ++ env.terraform_dir_files.map (fun f => Event.removeFile ("terraform/" ++ f))
    ++ [Event.log Level.info "Cluster destroyed."])

/-- Embedding of `destroy` (remote.py lines 269-291).  The entry event
records the `destroy_rg` flag the invocation received. -/
def destroyRun (env : Env) (destroy_rg : Bool) : Res Bool × List Event :=
  wthen [Event.destroyInvoked destroy_rg,
         Event.log Level.info "Destroying cluster...",
         Event.log Level.info "Verifying if group still exists..."] <|
  wcall Call.resourceGroupExists env.resource_group_exists fun rgExists =>
    if rgExists then
      wthen [Event.log Level.info
        "Group exists. Requesting destruction (this may take some time)..."] <|
      wcall Call.listResources env.list_resources fun _ =>
      wcall Call.deleteResources env.delete_resources fun _ =>
        if destroy_rg then
          wthen [Event.log Level.info
            "Destroying resource group, as it was created by us..."] <|
          wcall Call.deleteResourceGroup env.delete_resource_group fun _ =>
            destroyCleanup env
        else destroyCleanup env
    else destroyCleanup env

/-- Embedding of the `destroy` branch of `dispatch` (remote.py lines
345-346): the CLI passes `args.resource_group` — a string — as the
`destroy_rg` argument of `destroy`, where only its truthiness (being
non-empty) is consulted. -/
def dispatchDestroy (env : Env) (resource_group : String) :
    Res Bool × List Event :=
  destroyRun env (resource_group != "")

/-- Embedding of `check_cluster_name_length` (remote.py lines 53-64). -/
def check_cluster_name_length (cluster_name : String) : Bool × List Event :=
  if cluster_name.length > (63 - 2 - 6 - 3) then
    (false,
      [Event.log Level.error
        "Cluster name is too long. Please use a shorter name (max 52 characters)"])
  else (true, [])

/-- Body of the quota `try` of `setup_or_upgrade` (remote.py lines 93-95):
on an update run the current core counts are read first, then the quota is
verified. -/
def quotaBlock (env : Env) (is_update : Bool) : Res Unit × List Event :=
  if is_update then
    wcall Call.getCurrentCoreCount env.get_current_core_count fun _ =>
    wcall Call.verifyEnoughCores env.verify_enough_cores_available fun _ =>
      (Res.ok (), [])
  else
    wcall Call.verifyEnoughCores env.verify_enough_cores_available fun _ =>
      (Res.ok (), [])

/-- Lookup of one named Terraform output: `m["key"]["value"]` in Python; a
missing key raises a `KeyError`. -/
def req (m : List (String × String)) (k : String) : Res String :=
  match m.lookup k with
  | some v => Res.ok v
  | none => Res.exn ("KeyError: " ++ k)

/-- Left-to-right lookup of several named Terraform outputs; the first
missing key raises. -/
def reqAll (m : List (String × String)) : List String → Res (List String)
  | [] => Res.ok []
  | k :: ks =>
    match req m k with
    | Res.exn e => Res.exn e
    | Res.ok v =>
      match reqAll m ks with
      | Res.exn e => Res.exn e
      | Res.ok vs => Res.ok (v :: vs)

/-- Python `with terraform.workspace(name):` — acquire on entry, release on
every exit path, normal or exceptional. -/
def withWorkspace {α : Type} (name : String) (body : Res α × List Event) :
    Res α × List Event :=
  (body.1, Event.wsAcquire name :: body.2 ++ [Event.wsRelease name])

/-- Body of the workspace block of `setup_or_upgrade` (remote.py lines
169-216): `ensure_infra`, then `ensure_k8s_cluster` fed by nine named infra
outputs, then `ensure_services` fed by three infra outputs and one
`ensure_k8s_cluster` output.  Output lookups happen strictly before the call
consuming them, in argument order. -/
def wsBody (env : Env) : Res Unit × List Event :=
  wcall Call.ensureInfra env.ensure_infra fun infra =>
    match reqAll infra
      ["kubernetes_config_context", "public_ip_address", "public_ip_fqdn",
       "public_ip_dns", "keyvault_name", "application_id",
       "storage_connection_key", "storage_account_name",
       "userfile_container_name"] with
    | Res.exn e => (Res.exn e, [])
    | Res.ok _ =>
      wcall Call.ensureK8sCluster env.ensure_k8s_cluster fun k8s =>
        match reqAll infra
          ["kubernetes_config_context", "worker_node_pool_name",
           "public_ip_fqdn"] with
        | Res.exn e => (Res.exn e, [])
        | Res.ok _ =>
          match req k8s "shared_resource_pv_claim_name" with
          | Res.exn e => (Res.exn e, [])
          | Res.ok _ =>
            wcall Call.ensureServices env.ensure_services fun _ =>
              (Res.ok (), [])

/-- The `try` region of `setup_or_upgrade` (remote.py lines 133-216).  The
result carries, besides the control outcome, the `created_rg` flag as known
when the region exited: `Res.ok (some b)` is an early `return b` (the empty
backend-storage case), `Res.ok none` falls through to the final `status`
call, `Res.exn e` is an exception reaching the `except` handler. -/
def tryBlock (env : Env) (a : Args)
    (tenant_id subscription_id current_user : String) :
    (Res (Option Bool) × Bool) × List Event :=
  match (if a.is_update then (Res.ok false, ([] : List Event))
         else wcall Call.ensureResourceGroup env.ensure_resource_group
                fun b => (Res.ok b, [])) with
  | (Res.exn e, t) => ((Res.exn e, false), t)
  | (Res.ok created, t) =>
    match wcall Call.ensureAzurermBackend env.ensure_azurerm_backend
            (fun v => (Res.ok v, [])) with
    | (Res.exn e, t2) => ((Res.exn e, created), t ++ t2)
    | (Res.ok (storage_name, container_name, storage_access_key), t2) =>
      if storage_name = "" ∨ container_name = "" ∨ storage_access_key = "" then
        ((Res.ok (some false), created),
          t ++ t2
            ++ [Event.log Level.error
                 ("Couldnt create storage account for Terraform backend. "
                   ++ "Refusing to create cluster.")])
      else
        match (if a.registry_path ≠ "" ∧
                  pyEndsWith a.registry_path AZURE_CR_DOMAIN ∧ ¬a.is_update then
                 (if a.registry_username = "" ∨ a.registry_password = "" then
                    (match env.infer_registry_credentials with
                     | Res.exn e =>
                       (Res.exn e,
                         [Event.call Call.inferRegistryCredentials,
                          Event.log Level.error
                            ("Couldnt infer registry credentials for "
                              ++ a.registry_path
                              ++ ". Please provide them explicitly.")])
                     | Res.ok up =>
                       (Res.ok up, [Event.call Call.inferRegistryCredentials]))
                  else (Res.ok (a.registry_username, a.registry_password), []))
               else (Res.ok (a.registry_username, a.registry_password), [])) with
        | (Res.exn e, t3) => ((Res.exn e, created), t ++ t2 ++ t3)
        | (Res.ok _, t3) =>
          match withWorkspace
                  ("farmvibes-aks-" ++ a.cluster_name ++ "-" ++ a.resource_group)
                  (wsBody env) with
          | (Res.ok _, t4) => ((Res.ok none, created), t ++ t2 ++ t3 ++ t4)
          | (Res.exn e, t4) => ((Res.exn e, created), t ++ t2 ++ t3 ++ t4)

/-- The `except` handler of `setup_or_upgrade` (remote.py lines 218-240):
log the failure; on an update run never destroy; on a fresh create prompt,
and when the user declines to keep the cluster run `destroy` with the
tracked `created_rg` flag (an exception raised by `destroy` itself
propagates out of the handler). -/
def exceptHandler (env : Env) (is_update : Bool) (created : Bool)
    (e : String) : Res Bool × List Event :=
  wthen [Event.log Level.info e,
         Event.log Level.info
           ("Failed to " ++ (if is_update then "update" else "create")
             ++ " cluster." ++ (if is_update then "" else " Cleaning up..."))] <|
  if is_update then
    (Res.ok false,
      [Event.log Level.info
        ("Skipping cluster deletion since this is an update, please try "
          ++ "again later if the cluster is misbehaving.")])
  else if env.confirm_keep_cluster then
    (Res.ok false,
      [Event.log Level.info
        ("User opted to keep the cluster. Leaving it as is. The cluster can "
          ++ "be destroyed later by running the destroy subcommand.")])
  else
    wseq (destroyRun env created) fun _ => (Res.ok false, [])

/-- Tail of `setup_or_upgrade` from remote.py line 123 on: resolve
subscription and tenant (failure is a log-in error converted to `False`),
run the `try` region, dispatch its outcome to the handler or to the final
`status` call. -/
def setupMain (env : Env) (a : Args) (current_user : String) :
    Res Bool × List Event :=
  wthen [Event.log Level.info
    ("Will " ++ (if a.is_update then "update" else "create") ++ " cluster "
      ++ a.cluster_name ++ " in resource group " ++ a.resource_group ++ "...")] <|
  wthen [Event.call Call.getSubscriptionAndTenantId] <|
  match env.get_subscription_and_tenant_id with
  | Res.exn e =>
    (Res.ok false,
      [Event.log Level.error
        ("It seems you are not logged into Azure. Please log in. " ++ e)])
  | Res.ok (subscription_id, tenant_id) =>
    match tryBlock env a tenant_id subscription_id current_user with
    | ((Res.ok (some b), _), t) => (Res.ok b, t)
    | ((Res.ok none, _), t) =>
      wthen t (statusRun env a.cluster_name a.resource_group)
    | ((Res.exn e, created), t) =>
      wthen t (exceptHandler env a.is_update created e)

/-- Embedding of `setup_or_upgrade` (remote.py lines 67-242). -/
def setupRun (env : Env) (a : Args) : Res Bool × List Event :=
  if a.worker_replicas = 0 then
    (Res.ok false,
      [Event.log Level.info
        ("No worker replicas specified. You can change this by re-running "
          ++ "with farmvibes-ai local setup --worker-replicas number ...")])
  else
    wcall Call.refreshAzCreds env.refresh_az_creds fun _ =>
    wcall Call.checkResourceProviders env.check_resource_providers fun _ =>
    match quotaBlock env a.is_update with
    | (Res.exn e, t) =>
      (Res.ok false,
        t ++ [Event.log Level.error
          ("Looks like you dont have enough cores available in your "
            ++ "subscription. " ++ e)])
    | (Res.ok _, t) =>
      wthen t <|
      match check_cluster_name_length a.cluster_name with
      | (false, tn) => (Res.ok false, tn)
      | (true, tn) =>
        wthen tn <|
        wthen [Event.log Level.info "Getting current user name..."] <|
        wcall Call.getCurrentUserName env.get_current_user_name fun current_user =>
        wthen [Event.log Level.debug
                ("Current user name is: " ++ current_user),
               Event.log Level.info "Verifying cluster already exists..."] <|
        wcall Call.clusterExists env.cluster_exists fun cexists =>
          if cexists && !a.is_update then
            wthen [Event.log Level.warning
              "Seems like you might have a cluster already created."] <|
            if env.confirm_delete_existing then
              wseq (destroyRun env false) fun _ => setupMain env a current_user
            else
              (Res.exn "Previous cluster exists. Cancelled.",
                [Event.log Level.info "Canceling installation..."])
          else setupMain env a current_user

/-- Marker of the `destroy`-entry events of a trace. -/
def isDestroyEvt : Event → Bool
  | Event.destroyInvoked _ => true
  | _ => false

/-- Flags of the `destroy` invocations of a trace, in order. -/
def destFlags : List Event → List Bool
  | [] => []
  | Event.destroyInvoked b :: t => b :: destFlags t
  | _ :: t => destFlags t

/-- Marker of the three provisioning calls issued inside the Terraform
workspace block. -/
def wsLayerCall : Event → Bool
  | Event.call Call.ensureInfra => true
  | Event.call Call.ensureK8sCluster => true
  | Event.call Call.ensureServices => true
  | _ => false

/-- True when a trace contains none of the workspace-block provisioning
calls. -/
def noWsLayer : List Event → Bool
  | [] => true
  | e :: t => !wsLayerCall e && noWsLayer t

/-- Marker of the five resource-provisioning calls of a setup/update run. -/
def isProvCall : Event → Bool
  | Event.call Call.ensureResourceGroup => true
  | Event.call Call.ensureAzurermBackend => true
  | Event.call Call.ensureInfra => true
  | Event.call Call.ensureK8sCluster => true
  | Event.call Call.ensureServices => true
  | _ => false

/-- True when a trace contains no resource-provisioning call. -/
def noProv : List Event → Bool
  | [] => true
  | e :: t => !isProvCall e && noProv t

/-- Marker of the remote resource-deletion calls of `destroy`. -/
def isDeletionCall : Event → Bool
  | Event.call Call.deleteResources => true
  | Event.call Call.deleteResourceGroup => true
  | _ => false

/-- True when a trace contains no remote resource-deletion call. -/
def noDeletion : List Event → Bool
  | [] => true
  | e :: t => !isDeletionCall e && noDeletion t

/-- True when a trace contains a warning-level log line. -/
def hasWarn : List Event → Bool
  | [] => false
  | Event.log Level.warning _ :: _ => true
  | _ :: t => hasWarn t

/-- Contents written to the persisted URL file, in order. -/
def urlWrites : List Event → List String
  | [] => []
  | Event.writeFile p c :: t =>
    if p = configFile REMOTE_SERVICE_URL_PATH_FILE then c :: urlWrites t
    else urlWrites t
  | _ :: t => urlWrites t

/-- True when every occurrence of the call `c` in the trace lies strictly
inside a workspace acquire/release pair (the accumulator is the current
nesting depth). -/
def insideWs (c : Call) : Nat → List Event → Bool
  | _, [] => true
  | d, Event.wsAcquire _ :: r => insideWs c (d + 1) r
  | d, Event.wsRelease _ :: r => insideWs c (d - 1) r
  | d, Event.call c2 :: r =>
    (if c2 = c then decide (0 < d) else true) && insideWs c d r
  | d, _ :: r => insideWs c d r

/-- Prefix of a trace before the first workspace acquisition. -/
def preAcquire (t : List Event) : List Event :=
  t.takeWhile (fun e =>
    match e with
    | Event.wsAcquire _ => false
    | _ => true)

/-- Terraform outputs of a fully successful `ensure_infra`. -/
def infraOutputs : List (String × String) :=
  [("kubernetes_config_context", "ctx"), ("public_ip_address", "1.2.3.4"),
   ("public_ip_fqdn", "fqdn"), ("public_ip_dns", "dns"),
   ("keyvault_name", "kv"), ("application_id", "app"),
   ("storage_connection_key", "key"), ("storage_account_name", "stacct"),
   ("userfile_container_name", "uc"), ("worker_node_pool_name", "pool")]

/-- Terraform outputs of a fully successful `ensure_k8s_cluster`. -/
def k8sOutputs : List (String × String) :=
  [("shared_resource_pv_claim_name", "pvc")]

/-- Baseline boundary behaviour: every call succeeds. -/
def envOk : Env where
  in_wsl := false
  is_file_in_mount := false
  refresh_aks_credentials := Res.ok ()
  get_kubernetes_config_context := Res.ok "ctx"
  url_from_ingress := Res.ok "https://cluster.example.com"
  get_url_from_terraform_output := Res.ok ""
  refresh_az_creds := Res.ok ()
  check_resource_providers := Res.ok ()
  get_current_core_count := Res.ok (4, 2)
  verify_enough_cores_available := Res.ok ()
  get_current_user_name := Res.ok "user"
  cluster_exists := Res.ok false
  confirm_delete_existing := false
  confirm_keep_cluster := false
  get_subscription_and_tenant_id := Res.ok ("sub", "ten")
  ensure_resource_group := Res.ok true
  ensure_azurerm_backend := Res.ok ("st", "ct", "key")
  infer_registry_credentials := Res.ok ("u", "p")
  ensure_infra := Res.ok infraOutputs
  ensure_k8s_cluster := Res.ok k8sOutputs
  ensure_services := Res.ok ()
  resource_group_exists := Res.ok true
  list_resources := Res.ok ["r1"]
  delete_resources := Res.ok ()
  delete_resource_group := Res.ok ()
  kubeconfig_isfile := true
  terraform_dir_files := ["state.tfstate"]

/-- Baseline arguments of a fresh-create run. -/
def argsOk : Args where
  cluster_name := "farm"
  resource_group := "rg"
  region := "westus"
  certificate_email := "a@b.c"
  registry_path := ""
  registry_username := ""
  registry_password := ""
  image_pfx := ""
  image_tag := "tag"
  log_level := "info"
  is_update := false
  max_worker_nodes := 3
  worker_replicas := 1


/-! ## Helper lemmas about the traces of the sub-blocks -/

theorem destFlags_append (t1 t2 : List Event) :
    destFlags (t1 ++ t2) = destFlags t1 ++ destFlags t2 := by
  induction t1 with
  | nil => simp [destFlags]
  | cons e t ih => cases e <;> simp [destFlags, ih]

theorem noProv_append (t1 t2 : List Event) :
    noProv (t1 ++ t2) = (noProv t1 && noProv t2) := by
  induction t1 with
  | nil => simp [noProv]
  | cons e t ih => simp [noProv, ih, Bool.and_assoc]

theorem noWsLayer_append (t1 t2 : List Event) :
    noWsLayer (t1 ++ t2) = (noWsLayer t1 && noWsLayer t2) := by
  induction t1 with
  | nil => simp [noWsLayer]
  | cons e t ih => simp [noWsLayer, ih, Bool.and_assoc]

theorem noDeletion_append (t1 t2 : List Event) :
    noDeletion (t1 ++ t2) = (noDeletion t1 && noDeletion t2) := by
  induction t1 with
  | nil => simp [noDeletion]
  | cons e t ih => simp [noDeletion, ih, Bool.and_assoc]

theorem hasWarn_append (t1 t2 : List Event) :
    hasWarn (t1 ++ t2) = (hasWarn t1 || hasWarn t2) := by
  induction t1 with
  | nil => simp [hasWarn]
  | cons e t ih =>
    cases e with
    | log lvl msg => cases lvl <;> simp [hasWarn, ih]
    | call c => simp [hasWarn, ih]
    | writeFile p c => simp [hasWarn, ih]
    | removeFile p => simp [hasWarn, ih]
    | wsAcquire n => simp [hasWarn, ih]
    | wsRelease n => simp [hasWarn, ih]
    | destroyInvoked b => simp [hasWarn, ih]

theorem urlWrites_append (t1 t2 : List Event) :
    urlWrites (t1 ++ t2) = urlWrites t1 ++ urlWrites t2 := by
  induction t1 with
  | nil => simp [urlWrites]
  | cons e t ih =>
    cases e with
    | writeFile p c =>
      simp only [List.cons_append, urlWrites]
      split <;> simp [ih]
    | log lvl msg => simp [urlWrites, ih]
    | call c => simp [urlWrites, ih]
    | removeFile p => simp [urlWrites, ih]
    | wsAcquire n => simp [urlWrites, ih]
    | wsRelease n => simp [urlWrites, ih]
    | destroyInvoked b => simp [urlWrites, ih]

theorem destFlags_map_removeFile (l : List String) (p : String) :
    destFlags (l.map (fun f => Event.removeFile (p ++ f))) = [] := by
  induction l with
  | nil => simp [destFlags]
  | cons h tl ih => simpa [destFlags] using ih

theorem noWsLayer_map_removeFile (l : List String) (p : String) :
    noWsLayer (l.map (fun f => Event.removeFile (p ++ f))) = true := by
  induction l with
  | nil => simp [noWsLayer]
  | cons h tl ih => simpa [noWsLayer, wsLayerCall] using ih

theorem noDeletion_map_removeFile (l : List String) (p : String) :
    noDeletion (l.map (fun f => Event.removeFile (p ++ f))) = true := by
  induction l with
  | nil => simp [noDeletion]
  | cons h tl ih => simpa [noDeletion, isDeletionCall] using ih

theorem noProv_quotaBlock (env : Env) (iu : Bool) :
    noProv (quotaBlock env iu).2 = true := by
  cases iu
  · rcases h : env.verify_enough_cores_available with _ | e <;>
      simp [quotaBlock, wcall, h, noProv, isProvCall]
  · rcases h : env.get_current_core_count with cc | e <;>
      rcases h2 : env.verify_enough_cores_available with _ | e2 <;>
      simp [quotaBlock, wcall, h, h2, noProv, isProvCall]

theorem destFlags_destroyCleanup (env : Env) :
    destFlags (destroyCleanup env).2 = [] := by
  cases h : env.kubeconfig_isfile <;>
    simp [destroyCleanup, h, destFlags_append, destFlags_map_removeFile, destFlags]

theorem destFlags_destroyRun (env : Env) (f : Bool) :
    destFlags (destroyRun env f).2 = [f] := by
  rcases h1 : env.resource_group_exists with ex | e
  · cases ex
    · simp [destroyRun, wthen, wcall, h1, destFlags_append, destFlags,
        destFlags_destroyCleanup]
    · rcases h2 : env.list_resources with l | e2
      · rcases h3 : env.delete_resources with _ | e3
        · cases f
          · simp [destroyRun, wthen, wcall, h1, h2, h3, destFlags_append,
              destFlags, destFlags_destroyCleanup]
          · rcases h4 : env.delete_resource_group with _ | e4 <;>
              simp [destroyRun, wthen, wcall, h1, h2, h3, h4, destFlags_append,
                destFlags, destFlags_destroyCleanup]
        · simp [destroyRun, wthen, wcall, h1, h2, h3, destFlags_append, destFlags]
      · simp [destroyRun, wthen, wcall, h1, h2, destFlags_append, destFlags]
  · simp [destroyRun, wthen, wcall, h1, destFlags_append, destFlags]

theorem destFlags_statusFinish (stale : Bool) (url : String) :
    destFlags (statusFinish stale url).2 = [] := by
  cases stale <;> simp [statusFinish, destFlags]

theorem destFlags_statusRun (env : Env) (cn rg : String) :
    destFlags (statusRun env cn rg).2 = [] := by
  by_cases hw : (env.in_wsl && env.is_file_in_mount) = true
  · simp [statusRun, hw, destFlags]
  · rw [statusRun, if_neg hw]
    rcases h1 : env.refresh_aks_credentials with _ | e1
    · rcases h2 : env.get_kubernetes_config_context with c | e2
      · rcases h3 : env.url_from_ingress with u | e3
        · by_cases hu : u = ""
          · rcases h4 : env.get_url_from_terraform_output with v | e4
            · by_cases hv : v = "" <;>
                simp [wthen, wcall, h1, h2, h3, h4, hu, hv, destFlags_append,
                  destFlags, destFlags_statusFinish]
            · simp [wthen, wcall, h1, h2, h3, h4, hu, destFlags_append, destFlags]
          · simp [wthen, wcall, h1, h2, h3, hu, destFlags_append, destFlags,
              destFlags_statusFinish]
        · simp [wthen, wcall, h1, h2, h3, destFlags_append, destFlags]
      · simp [wthen, wcall, h1, h2, destFlags_append, destFlags]
    · simp [wthen, wcall, h1, destFlags_append, destFlags]

theorem destFlags_wsBody (env : Env) :
    destFlags (wsBody env).2 = [] := by
  rcases h1 : env.ensure_infra with infra | e1
  · rcases h9 : reqAll infra
      ["kubernetes_config_context", "public_ip_address", "public_ip_fqdn",
       "public_ip_dns", "keyvault_name", "application_id",
       "storage_connection_key", "storage_account_name",
       "userfile_container_name"] with vs | e9
    · rcases h2 : env.ensure_k8s_cluster with k8s | e2
      · rcases h3 : reqAll infra
          ["kubernetes_config_context", "worker_node_pool_name",
           "public_ip_fqdn"] with vs3 | e3
        · rcases h4 : req k8s "shared_resource_pv_claim_name" with v4 | e4
          · rcases h5 : env.ensure_services with _ | e5 <;>
              simp [wsBody, wcall, h1, h9, h2, h3, h4, h5, destFlags_append,
                destFlags]
          · simp [wsBody, wcall, h1, h9, h2, h3, h4, destFlags_append, destFlags]
        · simp [wsBody, wcall, h1, h9, h2, h3, destFlags_append, destFlags]
      · simp [wsBody, wcall, h1, h9, h2, destFlags_append, destFlags]
    · simp [wsBody, wcall, h1, h9, destFlags_append, destFlags]
  · simp [wsBody, wcall, h1, destFlags]

theorem destFlags_tryBlock (env : Env) (a : Args) (ti si cu : String) :
    destFlags (tryBlock env a ti si cu).2 = [] := by
  rcases hws : wsBody env with ⟨rw0, tw⟩
  have htw : destFlags tw = [] := by
    have h := destFlags_wsBody env
    rw [hws] at h
    exact h
  rw [tryBlock]
  rcases hiu : a.is_update
  · rcases h1 : env.ensure_resource_group with b | e1
    · rcases h2 : env.ensure_azurerm_backend with ⟨sn, cn2, sk⟩ | e2
      · by_cases hemp : sn = "" ∨ cn2 = "" ∨ sk = ""
        · simp [wcall, h1, h2, hemp, destFlags_append, destFlags]
        · by_cases hreg : a.registry_path ≠ "" ∧
              pyEndsWith a.registry_path AZURE_CR_DOMAIN = true ∧ ¬a.is_update
          · by_cases hup : a.registry_username = "" ∨ a.registry_password = ""
            · rcases h3 : env.infer_registry_credentials with up | e3 <;>
                cases rw0 <;>
                simp [wcall, h1, h2, hemp, hreg, hup, h3, withWorkspace, hws,
                  destFlags_append, destFlags, htw]
            · cases rw0 <;>
                simp [wcall, h1, h2, hemp, hreg, hup, withWorkspace, hws,
                  destFlags_append, destFlags, htw]
          · have hreg2 : ¬(a.registry_path ≠ "" ∧
                pyEndsWith a.registry_path AZURE_CR_DOMAIN = true) := by
              intro hcontra
              exact hreg ⟨hcontra.1, hcontra.2, by simp [hiu]⟩
            cases rw0 <;>
              simp [wcall, h1, h2, hemp, hreg2, withWorkspace, hws,
                destFlags_append, destFlags, htw]
      · simp [wcall, h1, h2, destFlags_append, destFlags]
    · simp [wcall, h1, destFlags]
  · rcases h2 : env.ensure_azurerm_backend with ⟨sn, cn2, sk⟩ | e2
    · by_cases hemp : sn = "" ∨ cn2 = "" ∨ sk = ""
      · simp [wcall, h2, hemp, destFlags_append, destFlags]
      · cases rw0 <;>
          simp [wcall, h2, hemp, hiu, withWorkspace, hws, destFlags_append,
            destFlags, htw]
    · simp [wcall, h2, destFlags_append, destFlags]

/-! ## Claim theorems -/

/-- C9: for every cluster name longer than 52 characters,
`check_cluster_name_length` returns false and logs an error, and
`setup_or_upgrade` performs no provisioning call; for every name of length
at most 52 it returns true; the limit equals 63 - 2 - 6 - 3. -/
theorem C9_cluster_name_length (cn : String) :
    (cn.length > 52 →
      (check_cluster_name_length cn).1 = false
      ∧ (check_cluster_name_length cn).2 =
          [Event.log Level.error
            "Cluster name is too long. Please use a shorter name (max 52 characters)"]
      ∧ ∀ (env : Env) (a : Args), a.cluster_name = cn →
          noProv (setupRun env a).2 = true)
    ∧ (cn.length ≤ 52 → (check_cluster_name_length cn).1 = true)
    ∧ 63 - 2 - 6 - 3 = 52 := by
  refine ⟨fun hlen => ⟨?_, ?_, ?_⟩, fun hlen => ?_, rfl⟩
  · simp [check_cluster_name_length, hlen]
  · simp [check_cluster_name_length, hlen]
  · intro env a hcn
    rw [setupRun]
    by_cases hwr : a.worker_replicas = 0
    · simp [hwr, noProv, isProvCall]
    · rw [if_neg hwr]
      rcases h1 : env.refresh_az_creds with _ | e1
      · rcases h2 : env.check_resource_providers with _ | e2
        · rcases hq : quotaBlock env a.is_update with ⟨rq, tq⟩
          have htq : noProv tq = true := by
            have h := noProv_quotaBlock env a.is_update
            rw [hq] at h
            exact h
          cases rq
          · have hname : (check_cluster_name_length a.cluster_name) =
                (false,
                  [Event.log Level.error
                    "Cluster name is too long. Please use a shorter name (max 52 characters)"]) := by
              simp [check_cluster_name_length, hcn, hlen]
            simp [wcall, h1, h2, hq, hname, wthen, noProv_append, noProv,
              isProvCall, htq]
          · simp [wcall, h1, h2, hq, noProv_append, noProv, isProvCall, htq]
        · simp [wcall, h1, h2, noProv, isProvCall]
      · simp [wcall, h1, noProv, isProvCall]
  · have h : ¬(cn.length > 63 - 2 - 6 - 3) := by omega
    simp [check_cluster_name_length, h]

/-- C9 witness: a 53-character name is rejected without provisioning; a
short name passes. -/
def longName : String := "abcdefghij-abcdefghij-abcdefghij-abcdefghij-abcdefghi"

/-- Arguments carrying the over-long cluster name. -/
def argsLong : Args := { argsOk with cluster_name := longName }

theorem C9_witness :
    longName.length > 52
    ∧ (check_cluster_name_length longName).1 = false
    ∧ noProv (setupRun envOk argsLong).2 = true
    ∧ "farm".length ≤ 52
    ∧ (check_cluster_name_length "farm").1 = true :=
  ⟨by decide,
   ((C9_cluster_name_length longName).1 (by decide)).1,
   ((C9_cluster_name_length longName).1 (by decide)).2.2 envOk argsLong (by decide),
   by decide,
   (C9_cluster_name_length "farm").2.1 (by decide)⟩

/-- Boundary behaviour where refreshing AKS credentials raises. -/
def envC1 : Env := { envOk with refresh_aks_credentials := Res.exn "boom" }

/-- C1 counterexample: `status` is a top-level workflow entry point, yet
when the `refresh_aks_credentials` boundary raises, the exception escapes
`status` instead of being converted to a boolean failure — refuting the
claim that the only exception escaping any entry point is the
cluster-exists-declined condition of setup. -/
theorem C1_counterexample :
    (statusRun envC1 "farm" "rg").1 = Res.exn "boom" := by decide

/-- Environment of an update run whose `ensure_infra` layer raises. -/
def envC1upd : Env := { envOk with ensure_infra := Res.exn "infra failed" }

/-- Arguments of an update run. -/
def argsUpd : Args := { argsOk with is_update := true }

/-- Environment where a cluster with the same identity already exists and
the user declines to delete it. -/
def envC1exists : Env := { envOk with cluster_exists := Res.ok true }

/-- C1 (amended): exception handling at the entry points is selective, not
total.  (1) Inside `setup_or_upgrade`, an exception raised anywhere in the
provisioning `try` region is caught and converted to the boolean failure
`False` (shown on an update run, where no rollback interaction occurs);
(2) the cluster-exists-declined condition is intentionally raised out of
the setup attempt; (3) boundary exceptions outside the wrapped regions
escape their entry point — e.g. a raise from `refresh_aks_credentials`
escapes `status`. -/
theorem C1_amended_exception_boundaries :
    (∀ (env : Env) (a : Args) (cc : Nat × Nat) (cu : String) (ce : Bool)
       (si ti e : String),
       a.worker_replicas ≠ 0 →
       a.is_update = true →
       env.refresh_az_creds = Res.ok () →
       env.check_resource_providers = Res.ok () →
       env.get_current_core_count = Res.ok cc →
       env.verify_enough_cores_available = Res.ok () →
       a.cluster_name.length ≤ 52 →
       env.get_current_user_name = Res.ok cu →
       env.cluster_exists = Res.ok ce →
       env.get_subscription_and_tenant_id = Res.ok (si, ti) →
       (tryBlock env a ti si cu).1.1 = Res.exn e →
       (setupRun env a).1 = Res.ok false)
    ∧ (∀ (env : Env) (a : Args) (cu : String),
       a.worker_replicas ≠ 0 →
       a.is_update = false →
       env.refresh_az_creds = Res.ok () →
       env.check_resource_providers = Res.ok () →
       env.verify_enough_cores_available = Res.ok () →
       a.cluster_name.length ≤ 52 →
       env.get_current_user_name = Res.ok cu →
       env.cluster_exists = Res.ok true →
       env.confirm_delete_existing = false →
       (setupRun env a).1 = Res.exn "Previous cluster exists. Cancelled.")
    ∧ (∀ (env : Env) (cn rg e : String),
       (env.in_wsl && env.is_file_in_mount) = false →
       env.refresh_aks_credentials = Res.exn e →
       (statusRun env cn rg).1 = Res.exn e) := by
  refine ⟨?_, ?_, ?_⟩
  · intro env a cc cu ce si ti e hwr hiu h1 h2 h3 h4 hn h5 h6 h7 htb
    rw [setupRun, if_neg hwr]
    have hq : quotaBlock env true =
        (Res.ok (), [Event.call Call.getCurrentCoreCount,
                     Event.call Call.verifyEnoughCores]) := by
      simp [quotaBlock, wcall, h3, h4]
    have hname : ¬(a.cluster_name.length > 63 - 2 - 6 - 3) := by omega
    rcases htb2 : tryBlock env a ti si cu with ⟨⟨r, created⟩, t⟩
    rw [htb2] at htb
    simp only at htb
    subst htb
    simp [wcall, h1, h2, hq, check_cluster_name_length, hname, wthen, h5, h6,
      hiu, setupMain, h7, htb2, exceptHandler]
  · intro env a cu hwr hiu h1 h2 h4 hn h5 h6 h7
    rw [setupRun, if_neg hwr]
    have hq : quotaBlock env false =
        (Res.ok (), [Event.call Call.verifyEnoughCores]) := by
      simp [quotaBlock, wcall, h4]
    have hname : ¬(a.cluster_name.length > 63 - 2 - 6 - 3) := by omega
    simp [wcall, h1, h2, hq, check_cluster_name_length, hname, wthen, h5, h6,
      hiu, h7]
  · intro env cn rg e hw hr
    rw [statusRun, if_neg (by simp [hw])]
    simp [wthen, wcall, hr]

/-- C1 witness: the three amended cases at concrete inputs. -/
theorem C1_witness :
    (setupRun envC1upd argsUpd).1 = Res.ok false
    ∧ (setupRun envC1exists argsOk).1 = Res.exn "Previous cluster exists. Cancelled."
    ∧ (statusRun envC1 "c1" "g1").1 = Res.exn "boom" :=
  ⟨C1_amended_exception_boundaries.1 envC1upd argsUpd (4, 2) "user" false
     "sub" "ten" "infra failed" (by decide) (by decide) (by decide) (by decide)
     (by decide) (by decide) (by decide) (by decide) (by decide) (by decide)
     (by decide),
   C1_amended_exception_boundaries.2.1 envC1exists argsOk "user" (by decide)
     (by decide) (by decide) (by decide) (by decide) (by decide) (by decide)
     (by decide) (by decide),
   C1_amended_exception_boundaries.2.2 envC1 "c1" "g1" "boom" (by decide)
     (by decide)⟩

/-- C5: the CLI `destroy` action passes `args.resource_group` — a string —
as the boolean `destroy_rg` parameter of `destroy` (remote.py line 346).
Any non-empty resource-group name is truthy, so a resource group that
existed before the invocation (which created nothing) is deleted anyway:
the run issues `delete_resource_group` although no `ensure_resource_group`
call (the only source of the created-flag) ever happened. -/
theorem C5_dispatch_destroy_deletes_preexisting_group :
    Event.call Call.deleteResourceGroup ∈ (dispatchDestroy envOk "farmvibes-rg").2
    ∧ Event.call Call.ensureResourceGroup ∉ (dispatchDestroy envOk "farmvibes-rg").2
    ∧ (dispatchDestroy envOk "farmvibes-rg").1 = Res.ok true := by decide

/-- C8: `destroy` on a cluster whose resource group no longer exists
returns success and issues no resource-deletion call; two consecutive runs
both succeed. -/
theorem C8_destroy_idempotent (env1 env2 : Env) (f1 f2 : Bool)
    (h1 : env1.resource_group_exists = Res.ok false)
    (h2 : env2.resource_group_exists = Res.ok false) :
    (destroyRun env1 f1).1 = Res.ok true
    ∧ (destroyRun env2 f2).1 = Res.ok true
    ∧ noDeletion (destroyRun env2 f2).2 = true := by
  refine ⟨?_, ?_, ?_⟩
  · simp [destroyRun, wthen, wcall, h1, destroyCleanup]
  · simp [destroyRun, wthen, wcall, h2, destroyCleanup]
  · cases hk : env2.kubeconfig_isfile <;>
      simp [destroyRun, wthen, wcall, h2, destroyCleanup, hk, noDeletion_append,
        noDeletion, isDeletionCall, noDeletion_map_removeFile]

/-- Boundary behaviour of an already-destroyed cluster. -/
def envGone : Env := { envOk with resource_group_exists := Res.ok false }

/-- C8 witness: both consecutive destroy runs on the destroyed cluster. -/
theorem C8_witness :
    envGone.resource_group_exists = Res.ok false
    ∧ ((destroyRun envGone false).1 = Res.ok true
       ∧ (destroyRun envGone false).1 = Res.ok true
       ∧ noDeletion (destroyRun envGone false).2 = true) :=
  ⟨by decide, C8_destroy_idempotent envGone envGone false false (by decide)
    (by decide)⟩

/-- C6: the three cases of `status`.  When live ingress discovery returns a
non-empty URL, status succeeds, the persisted URL file receives exactly that
URL with double quotes stripped, and no warning is logged; when ingress is
empty but the Terraform-output URL is non-empty, status succeeds, the file
receives the stripped fallback URL, and a staleness warning is logged; when
both are empty, status fails and no URL file is written. -/
theorem C6_status_cases (env : Env) (cn rg ctx u : String)
    (hw : (env.in_wsl && env.is_file_in_mount) = false)
    (hr : env.refresh_aks_credentials = Res.ok ())
    (hc : env.get_kubernetes_config_context = Res.ok ctx)
    (hu : env.url_from_ingress = Res.ok u) :
    (u ≠ "" →
      (statusRun env cn rg).1 = Res.ok true
      ∧ urlWrites (statusRun env cn rg).2 = [stripQuotes u]
      ∧ hasWarn (statusRun env cn rg).2 = false)
    ∧ (∀ v, u = "" → env.get_url_from_terraform_output = Res.ok v →
        (v ≠ "" →
          (statusRun env cn rg).1 = Res.ok true
          ∧ urlWrites (statusRun env cn rg).2 = [stripQuotes v]
          ∧ hasWarn (statusRun env cn rg).2 = true)
        ∧ (v = "" →
          (statusRun env cn rg).1 = Res.ok false
          ∧ urlWrites (statusRun env cn rg).2 = [])) := by
  constructor
  · intro hne
    rw [statusRun, if_neg (by simp [hw])]
    simp [wthen, wcall, hr, hc, hu, hne, statusFinish, urlWrites_append,
      urlWrites, hasWarn_append, hasWarn]
  · intro v hu0 hv
    subst hu0
    constructor
    · intro hvne
      rw [statusRun, if_neg (by simp [hw])]
      simp [wthen, wcall, hr, hc, hu, hv, hvne, statusFinish, urlWrites_append,
        urlWrites, hasWarn_append, hasWarn]
    · intro hv0
      subst hv0
      rw [statusRun, if_neg (by simp [hw])]
      simp [wthen, wcall, hr, hc, hu, hv, urlWrites_append, urlWrites,
        hasWarn_append, hasWarn]

/-- Boundary behaviour where ingress is empty and the Terraform output
carries a quoted URL. -/
def envStale : Env :=
  { envOk with url_from_ingress := Res.ok "",
               get_url_from_terraform_output := Res.ok "\"https://old.example.com\"" }

/-- C6 witness: the staleness-fallback case at a concrete input. -/
theorem C6_witness :
    (envStale.in_wsl && envStale.is_file_in_mount) = false
    ∧ envStale.url_from_ingress = Res.ok ""
    ∧ envStale.get_url_from_terraform_output =
        Res.ok "\"https://old.example.com\""
    ∧ ((statusRun envStale "farm" "rg").1 = Res.ok true
       ∧ urlWrites (statusRun envStale "farm" "rg").2 =
           [stripQuotes "\"https://old.example.com\""]
       ∧ hasWarn (statusRun envStale "farm" "rg").2 = true) :=
  ⟨by decide, by decide, by decide,
   ((C6_status_cases envStale "farm" "rg" "ctx" "" (by decide) (by decide)
       (by decide) (by decide)).2 "\"https://old.example.com\"" (by decide)
       (by decide)).1 (by decide)⟩

/-- On a fresh create whose `ensure_resource_group` returns `b`, the
`created_rg` flag carried out of the try region equals `b` on every exit
path. -/
theorem tryBlock_created (env : Env) (a : Args) (ti si cu : String) (b : Bool)
    (hiu : a.is_update = false) (hrg : env.ensure_resource_group = Res.ok b) :
    (tryBlock env a ti si cu).1.2 = b := by
  rcases hws : wsBody env with ⟨rw0, tw⟩
  rw [tryBlock]
  rcases h2 : env.ensure_azurerm_backend with ⟨sn, cn2, sk⟩ | e2
  · by_cases hemp : sn = "" ∨ cn2 = "" ∨ sk = ""
    · simp [wcall, hiu, hrg, h2, hemp]
    · by_cases hreg : a.registry_path ≠ "" ∧
          pyEndsWith a.registry_path AZURE_CR_DOMAIN = true ∧ ¬a.is_update
      · by_cases hup : a.registry_username = "" ∨ a.registry_password = ""
        · rcases h3 : env.infer_registry_credentials with up | e3 <;>
            cases rw0 <;>
            simp [wcall, hiu, hrg, h2, hemp, hreg, hup, h3, withWorkspace, hws]
        · cases rw0 <;>
            simp [wcall, hiu, hrg, h2, hemp, hreg, hup, withWorkspace, hws]
      · have hreg2 : ¬(a.registry_path ≠ "" ∧
            pyEndsWith a.registry_path AZURE_CR_DOMAIN = true) := by
          intro hcontra
          exact hreg ⟨hcontra.1, hcontra.2, by simp [hiu]⟩
        cases rw0 <;>
          simp [wcall, hiu, hrg, h2, hemp, hreg2, withWorkspace, hws]
  · simp [wcall, hiu, hrg, h2]

/-- C2: on a fresh create where the provisioning region raises and the
user declines to keep the cluster, `destroy` is invoked exactly once, with
`destroy_rg` equal to the flag returned by
`ensure_resource_group` in this run. -/
theorem C2_rollback_destroy_flag (env : Env) (a : Args)
    (cu si ti e : String) (b : Bool)
    (hwr : a.worker_replicas ≠ 0)
    (hiu : a.is_update = false)
    (h1 : env.refresh_az_creds = Res.ok ())
    (h2 : env.check_resource_providers = Res.ok ())
    (h4 : env.verify_enough_cores_available = Res.ok ())
    (hn : a.cluster_name.length ≤ 52)
    (h5 : env.get_current_user_name = Res.ok cu)
    (h6 : env.cluster_exists = Res.ok false)
    (h7 : env.get_subscription_and_tenant_id = Res.ok (si, ti))
    (hrg : env.ensure_resource_group = Res.ok b)
    (htb : (tryBlock env a ti si cu).1.1 = Res.exn e)
    (hck : env.confirm_keep_cluster = false) :
    destFlags (setupRun env a).2 = [b] := by
  rw [setupRun, if_neg hwr]
  have hq : quotaBlock env false =
      (Res.ok (), [Event.call Call.verifyEnoughCores]) := by
    simp [quotaBlock, wcall, h4]
  have hname : ¬(a.cluster_name.length > 63 - 2 - 6 - 3) := by omega
  rcases htb2 : tryBlock env a ti si cu with ⟨⟨r, created⟩, t⟩
  rw [htb2] at htb
  simp only at htb
  subst htb
  have hcreated : created = b := by
    have h := tryBlock_created env a ti si cu b hiu hrg
    rw [htb2] at h
    simpa using h
  subst hcreated
  have htfl : destFlags t = [] := by
    have h := destFlags_tryBlock env a ti si cu
    rw [htb2] at h
    exact h
  rcases hd : destroyRun env created with ⟨rd, td⟩
  have htd : destFlags td = [created] := by
    have h := destFlags_destroyRun env created
    rw [hd] at h
    exact h
  cases rd <;>
    simp [wcall, h1, h2, hq, check_cluster_name_length, hname, wthen, h5, h6,
      hiu, setupMain, h7, htb2, exceptHandler, hck, wseq, hd, destFlags_append,
      destFlags, htfl, htd]

/-- Environment of a fresh create whose `ensure_infra` raises, with the
keep-cluster prompt declined. -/
def envC2 : Env := { envOk with ensure_infra := Res.exn "infra failed" }

/-- C2 witness: the rollback destroy at a concrete input receives exactly
the tracked created-resource-group flag. -/
theorem C2_witness :
    envC2.ensure_resource_group = Res.ok true
    ∧ (tryBlock envC2 argsOk "ten" "sub" "user").1.1 = Res.exn "infra failed"
    ∧ destFlags (setupRun envC2 argsOk).2 = [true] :=
  ⟨by decide, by decide,
   C2_rollback_destroy_flag envC2 argsOk "user" "sub" "ten" "infra failed" true
     (by decide) (by decide) (by decide) (by decide) (by decide) (by decide)
     (by decide) (by decide) (by decide) (by decide) (by decide) (by decide)⟩

/-- C3: on an update run, a provisioning failure never triggers `destroy`,
whatever the user-confirmation flags are: the trace of the whole run
contains no destroy invocation at all. -/
theorem C3_update_never_destroys (env : Env) (a : Args) (cc : Nat × Nat)
    (cu si ti e : String) (ce : Bool)
    (hwr : a.worker_replicas ≠ 0)
    (hiu : a.is_update = true)
    (h1 : env.refresh_az_creds = Res.ok ())
    (h2 : env.check_resource_providers = Res.ok ())
    (h3 : env.get_current_core_count = Res.ok cc)
    (h4 : env.verify_enough_cores_available = Res.ok ())
    (hn : a.cluster_name.length ≤ 52)
    (h5 : env.get_current_user_name = Res.ok cu)
    (h6 : env.cluster_exists = Res.ok ce)
    (h7 : env.get_subscription_and_tenant_id = Res.ok (si, ti))
    (htb : (tryBlock env a ti si cu).1.1 = Res.exn e) :
    destFlags (setupRun env a).2 = [] := by
  rw [setupRun, if_neg hwr]
  have hq : quotaBlock env true =
      (Res.ok (), [Event.call Call.getCurrentCoreCount,
                   Event.call Call.verifyEnoughCores]) := by
    simp [quotaBlock, wcall, h3, h4]
  have hname : ¬(a.cluster_name.length > 63 - 2 - 6 - 3) := by omega
  rcases htb2 : tryBlock env a ti si cu with ⟨⟨r, created⟩, t⟩
  rw [htb2] at htb
  simp only at htb
  subst htb
  have htfl : destFlags t = [] := by
    have h := destFlags_tryBlock env a ti si cu
    rw [htb2] at h
    exact h
  simp [wcall, h1, h2, hq, check_cluster_name_length, hname, wthen, h5, h6,
    hiu, setupMain, h7, htb2, exceptHandler, destFlags_append, destFlags, htfl]

/-- C3 witness: an update run whose `ensure_infra` raises invokes no
destroy. -/
theorem C3_witness :
    argsUpd.is_update = true
    ∧ (tryBlock envC1upd argsUpd "ten" "sub" "user").1.1 = Res.exn "infra failed"
    ∧ destFlags (setupRun envC1upd argsUpd).2 = [] :=
  ⟨by decide, by decide,
   C3_update_never_destroys envC1upd argsUpd (4, 2) "user" "sub" "ten"
     "infra failed" false (by decide) (by decide) (by decide) (by decide)
     (by decide) (by decide) (by decide) (by decide) (by decide) (by decide)
     (by decide)⟩

theorem noWsLayer_destroyCleanup (env : Env) :
    noWsLayer (destroyCleanup env).2 = true := by
  cases h : env.kubeconfig_isfile <;>
    simp [destroyCleanup, h, noWsLayer_append, noWsLayer, wsLayerCall,
      noWsLayer_map_removeFile]

theorem noWsLayer_destroyRun (env : Env) (f : Bool) :
    noWsLayer (destroyRun env f).2 = true := by
  rcases h1 : env.resource_group_exists with ex | e
  · cases ex
    · simp [destroyRun, wthen, wcall, h1, noWsLayer_append, noWsLayer,
        wsLayerCall, noWsLayer_destroyCleanup]
    · rcases h2 : env.list_resources with l | e2
      · rcases h3 : env.delete_resources with _ | e3
        · cases f
          · simp [destroyRun, wthen, wcall, h1, h2, h3, noWsLayer_append,
              noWsLayer, wsLayerCall, noWsLayer_destroyCleanup]
          · rcases h4 : env.delete_resource_group with _ | e4 <;>
              simp [destroyRun, wthen, wcall, h1, h2, h3, h4, noWsLayer_append,
                noWsLayer, wsLayerCall, noWsLayer_destroyCleanup]
        · simp [destroyRun, wthen, wcall, h1, h2, h3, noWsLayer_append,
            noWsLayer, wsLayerCall]
      · simp [destroyRun, wthen, wcall, h1, h2, noWsLayer_append, noWsLayer,
          wsLayerCall]
  · simp [destroyRun, wthen, wcall, h1, noWsLayer_append, noWsLayer, wsLayerCall]

/-- Environment of a fresh create where registry-credential inference
raises and the user keeps the cluster. -/
def envC4 : Env := { envOk with infer_registry_credentials := Res.exn "no creds",
                                confirm_keep_cluster := true }

/-- Arguments of a fresh create whose registry path lies in the managed
registry domain, with no explicit credentials. -/
def argsC4 : Args := { argsOk with registry_path := "myreg.azurecr.io" }

/-- C4 counterexample: when registry-credential inference fails on a fresh
create, the workflow does abort (returns failure), but `ensure_resource_group`
and the backend-storage creation have already been performed before the
abort — refuting the claim that no resource-creating operation precedes it. -/
theorem C4_counterexample :
    (setupRun envC4 argsC4).1 = Res.ok false
    ∧ Event.call Call.ensureResourceGroup ∈ (setupRun envC4 argsC4).2
    ∧ Event.call Call.ensureAzurermBackend ∈ (setupRun envC4 argsC4).2 := by
  decide

/-- C4 (amended): failure to infer registry credentials aborts the
workflow (the raise reaches the rollback handler, which returns failure)
before any of `ensure_infra`, `ensure_k8s_cluster` or `ensure_services`
has run — but after `ensure_resource_group` and the backend-storage
creation, which have already been performed. -/
theorem C4_amended_infer_failure_scope (env : Env) (a : Args)
    (cu si ti e : String) (b ge : Bool) (sn cn2 sk : String) (lr : List String)
    (hwr : a.worker_replicas ≠ 0)
    (hiu : a.is_update = false)
    (h1 : env.refresh_az_creds = Res.ok ())
    (h2 : env.check_resource_providers = Res.ok ())
    (h4 : env.verify_enough_cores_available = Res.ok ())
    (hn : a.cluster_name.length ≤ 52)
    (h5 : env.get_current_user_name = Res.ok cu)
    (h6 : env.cluster_exists = Res.ok false)
    (h7 : env.get_subscription_and_tenant_id = Res.ok (si, ti))
    (hrg : env.ensure_resource_group = Res.ok b)
    (hbk : env.ensure_azurerm_backend = Res.ok (sn, cn2, sk))
    (hsn : sn ≠ "") (hcn : cn2 ≠ "") (hsk : sk ≠ "")
    (hrp : a.registry_path ≠ "")
    (hend : pyEndsWith a.registry_path AZURE_CR_DOMAIN = true)
    (hru : a.registry_username = "")
    (hinf : env.infer_registry_credentials = Res.exn e)
    (hge : env.resource_group_exists = Res.ok ge)
    (hlr : env.list_resources = Res.ok lr)
    (hdr : env.delete_resources = Res.ok ())
    (hdg : env.delete_resource_group = Res.ok ()) :
    (setupRun env a).1 = Res.ok false
    ∧ noWsLayer (setupRun env a).2 = true
    ∧ Event.call Call.ensureResourceGroup ∈ (setupRun env a).2
    ∧ Event.call Call.ensureAzurermBackend ∈ (setupRun env a).2 := by
  rw [setupRun, if_neg hwr]
  have hq : quotaBlock env false =
      (Res.ok (), [Event.call Call.verifyEnoughCores]) := by
    simp [quotaBlock, wcall, h4]
  have hname : ¬(a.cluster_name.length > 63 - 2 - 6 - 3) := by omega
  have hemp : ¬(sn = "" ∨ cn2 = "" ∨ sk = "") := by simp [hsn, hcn, hsk]
  have htb : tryBlock env a ti si cu =
      ((Res.exn e, b),
        [Event.call Call.ensureResourceGroup,
         Event.call Call.ensureAzurermBackend,
         Event.call Call.inferRegistryCredentials,
         Event.log Level.error
           ("Couldnt infer registry credentials for " ++ a.registry_path
             ++ ". Please provide them explicitly.")]) := by
    rw [tryBlock]
    simp [wcall, hiu, hrg, hbk, hemp, hrp, hend, hru, hinf]
  rcases hd : destroyRun env b with ⟨rd, td⟩
  have hdres : rd = Res.ok true := by
    have h : (destroyRun env b).1 = Res.ok true := by
      cases ge
      all_goals cases b
      all_goals simp [destroyRun, wthen, wcall, hge, hlr, hdr, hdg,
        destroyCleanup]
    rw [hd] at h
    exact h
  have htdws : noWsLayer td = true := by
    have h := noWsLayer_destroyRun env b
    rw [hd] at h
    exact h
  subst hdres
  cases hckv : env.confirm_keep_cluster <;>
    simp [wcall, h1, h2, hq, check_cluster_name_length, hname, wthen, h5, h6,
      hiu, setupMain, h7, htb, exceptHandler, hckv, wseq, hd, noWsLayer_append,
      noWsLayer, wsLayerCall, htdws]

/-- C4 witness: the amended scope at a concrete input (user keeps the
cluster). -/
theorem C4_witness :
    envC4.infer_registry_credentials = Res.exn "no creds"
    ∧ pyEndsWith argsC4.registry_path AZURE_CR_DOMAIN = true
    ∧ ((setupRun envC4 argsC4).1 = Res.ok false
       ∧ noWsLayer (setupRun envC4 argsC4).2 = true
       ∧ Event.call Call.ensureResourceGroup ∈ (setupRun envC4 argsC4).2
       ∧ Event.call Call.ensureAzurermBackend ∈ (setupRun envC4 argsC4).2) :=
  ⟨by decide, by decide,
   C4_amended_infer_failure_scope envC4 argsC4 "user" "sub" "ten" "no creds"
     true true "st" "ct" "key" ["r1"] (by decide) (by decide) (by decide)
     (by decide) (by decide) (by decide) (by decide) (by decide) (by decide)
     (by decide) (by decide) (by decide) (by decide) (by decide) (by decide)
     (by decide) (by decide) (by decide) (by decide) (by decide) (by decide)
     (by decide)⟩

/-- Every call issued by the workspace body lies at positive nesting depth,
and the closing release returns the depth to zero. -/
theorem insideWs_wsBody_release (env : Env) (c : Call) (nm : String) :
    insideWs c 1 ((wsBody env).2 ++ [Event.wsRelease nm]) = true := by
  rcases h1 : env.ensure_infra with infra | e1
  · rcases h9 : reqAll infra
      ["kubernetes_config_context", "public_ip_address", "public_ip_fqdn",
       "public_ip_dns", "keyvault_name", "application_id",
       "storage_connection_key", "storage_account_name",
       "userfile_container_name"] with vs | e9
    · rcases h2 : env.ensure_k8s_cluster with k8sm | e2
      · rcases h3 : reqAll infra
          ["kubernetes_config_context", "worker_node_pool_name",
           "public_ip_fqdn"] with vs3 | e3
        · rcases h4 : req k8sm "shared_resource_pv_claim_name" with v4 | e4
          · rcases h5 : env.ensure_services with _ | e5 <;>
              simp [wsBody, wcall, h1, h9, h2, h3, h4, h5, insideWs]
          · simp [wsBody, wcall, h1, h9, h2, h3, h4, insideWs]
        · simp [wsBody, wcall, h1, h9, h2, h3, insideWs]
      · simp [wsBody, wcall, h1, h9, h2, insideWs]
    · simp [wsBody, wcall, h1, h9, insideWs]
  · simp [wsBody, wcall, h1, insideWs]

/-- C7 counterexample: on a fully successful fresh create, both
`ensure_resource_group` and the backend-storage creation are performed, yet
neither occurs inside the workspace acquire/release scope — refuting the
claim that all five provisioning operations run inside it. -/
theorem C7_counterexample :
    Event.call Call.ensureResourceGroup ∈ (setupRun envOk argsOk).2
    ∧ insideWs Call.ensureResourceGroup 0 (setupRun envOk argsOk).2 = false
    ∧ Event.call Call.ensureAzurermBackend ∈ (setupRun envOk argsOk).2
    ∧ insideWs Call.ensureAzurermBackend 0 (setupRun envOk argsOk).2 = false := by
  decide

/-- C7 (amended): the provisioning sequence acquires exactly one workspace,
named from the cluster name and resource group; `ensure_infra`,
`ensure_k8s_cluster` and `ensure_services` run strictly inside the
acquire/release scope and the workspace is released on every exit path of
the provisioning region (no hypothesis constrains the three inner layers,
so exceptional exits are covered); `ensure_resource_group` and the
backend-storage creation, however, run before the acquisition. -/
theorem C7_amended_workspace_scope (env : Env) (a : Args)
    (ti si cu : String) (b : Bool) (sn cn2 sk : String)
    (hiu : a.is_update = false)
    (hrg : env.ensure_resource_group = Res.ok b)
    (hbk : env.ensure_azurerm_backend = Res.ok (sn, cn2, sk))
    (hsn : sn ≠ "") (hcn : cn2 ≠ "") (hsk : sk ≠ "")
    (hrp : a.registry_path = "") :
    Event.wsAcquire ("farmvibes-aks-" ++ a.cluster_name ++ "-" ++ a.resource_group)
      ∈ (tryBlock env a ti si cu).2
    ∧ Event.wsRelease ("farmvibes-aks-" ++ a.cluster_name ++ "-" ++ a.resource_group)
      ∈ (tryBlock env a ti si cu).2
    ∧ insideWs Call.ensureInfra 0 (tryBlock env a ti si cu).2 = true
    ∧ insideWs Call.ensureK8sCluster 0 (tryBlock env a ti si cu).2 = true
    ∧ insideWs Call.ensureServices 0 (tryBlock env a ti si cu).2 = true
    ∧ Event.call Call.ensureResourceGroup ∈ preAcquire (tryBlock env a ti si cu).2
    ∧ Event.call Call.ensureAzurermBackend ∈ preAcquire (tryBlock env a ti si cu).2 := by
  have hemp : ¬(sn = "" ∨ cn2 = "" ∨ sk = "") := by simp [hsn, hcn, hsk]
  rcases hws : wsBody env with ⟨rw0, tw⟩
  have hin : ∀ c : Call,
      insideWs c 1 (tw ++ [Event.wsRelease
        ("farmvibes-aks-" ++ a.cluster_name ++ "-" ++ a.resource_group)]) = true := by
    intro c
    have h := insideWs_wsBody_release env c
      ("farmvibes-aks-" ++ a.cluster_name ++ "-" ++ a.resource_group)
    rw [hws] at h
    simpa using h
  have htb : (tryBlock env a ti si cu).2 =
      Event.call Call.ensureResourceGroup :: Event.call Call.ensureAzurermBackend ::
        Event.wsAcquire ("farmvibes-aks-" ++ a.cluster_name ++ "-" ++ a.resource_group) ::
        (tw ++ [Event.wsRelease
          ("farmvibes-aks-" ++ a.cluster_name ++ "-" ++ a.resource_group)]) := by
    rw [tryBlock]
    cases rw0 <;>
      simp [wcall, hiu, hrg, hbk, hemp, hrp, withWorkspace, hws]
  rw [htb]
  refine ⟨by simp, by simp, ?_, ?_, ?_, by simp [preAcquire], by simp [preAcquire]⟩
  all_goals simp [insideWs, hin]

/-- C7 witness: the amended workspace scoping at a concrete input. -/
theorem C7_witness :
    argsOk.is_update = false
    ∧ envOk.ensure_azurerm_backend = Res.ok ("st", "ct", "key")
    ∧ (Event.wsAcquire ("farmvibes-aks-" ++ argsOk.cluster_name ++ "-"
         ++ argsOk.resource_group) ∈ (tryBlock envOk argsOk "ten" "sub" "user").2
       ∧ Event.wsRelease ("farmvibes-aks-" ++ argsOk.cluster_name ++ "-"
           ++ argsOk.resource_group) ∈ (tryBlock envOk argsOk "ten" "sub" "user").2
       ∧ insideWs Call.ensureInfra 0 (tryBlock envOk argsOk "ten" "sub" "user").2 = true
       ∧ insideWs Call.ensureK8sCluster 0 (tryBlock envOk argsOk "ten" "sub" "user").2 = true
       ∧ insideWs Call.ensureServices 0 (tryBlock envOk argsOk "ten" "sub" "user").2 = true
       ∧ Event.call Call.ensureResourceGroup
           ∈ preAcquire (tryBlock envOk argsOk "ten" "sub" "user").2
       ∧ Event.call Call.ensureAzurermBackend
           ∈ preAcquire (tryBlock envOk argsOk "ten" "sub" "user").2) :=
  ⟨by decide, by decide,
   C7_amended_workspace_scope envOk argsOk "ten" "sub" "user" true "st" "ct"
     "key" (by decide) (by decide) (by decide) (by decide) (by decide)
     (by decide) (by decide)⟩

/-- C10: when every provisioning layer completes without error, the boolean
result of `setup_or_upgrade` is exactly the result of `status`; in
particular (outside the WSL gate) setup reports success precisely when the
live-ingress URL or the Terraform-output fallback URL is non-empty. -/
theorem C10_setup_result_is_status (env : Env) (a : Args)
    (cu si ti : String) (cc : Nat × Nat) (b ce : Bool) (sn cn2 sk pv : String)
    (m mk : List (String × String)) (vs9 vs3 : List String)
    (hwr : a.worker_replicas ≠ 0)
    (h1 : env.refresh_az_creds = Res.ok ())
    (h2 : env.check_resource_providers = Res.ok ())
    (h3 : env.get_current_core_count = Res.ok cc)
    (h4 : env.verify_enough_cores_available = Res.ok ())
    (hn : a.cluster_name.length ≤ 52)
    (h5 : env.get_current_user_name = Res.ok cu)
    (h6 : env.cluster_exists = Res.ok ce)
    (hce : a.is_update = false → ce = false)
    (h7 : env.get_subscription_and_tenant_id = Res.ok (si, ti))
    (hrg : env.ensure_resource_group = Res.ok b)
    (hbk : env.ensure_azurerm_backend = Res.ok (sn, cn2, sk))
    (hsn : sn ≠ "") (hcn : cn2 ≠ "") (hsk : sk ≠ "")
    (hrp : a.registry_path = "")
    (hinfra : env.ensure_infra = Res.ok m)
    (h9 : reqAll m
      ["kubernetes_config_context", "public_ip_address", "public_ip_fqdn",
       "public_ip_dns", "keyvault_name", "application_id",
       "storage_connection_key", "storage_account_name",
       "userfile_container_name"] = Res.ok vs9)
    (hk8s : env.ensure_k8s_cluster = Res.ok mk)
    (h3k : reqAll m
      ["kubernetes_config_context", "worker_node_pool_name",
       "public_ip_fqdn"] = Res.ok vs3)
    (hpv : req mk "shared_resource_pv_claim_name" = Res.ok pv)
    (hsvc : env.ensure_services = Res.ok ()) :
    (setupRun env a).1 = (statusRun env a.cluster_name a.resource_group).1
    ∧ ((env.in_wsl && env.is_file_in_mount) = false →
       ∀ ctx u v : String, env.refresh_aks_credentials = Res.ok () →
         env.get_kubernetes_config_context = Res.ok ctx →
         env.url_from_ingress = Res.ok u →
         env.get_url_from_terraform_output = Res.ok v →
         ((setupRun env a).1 = Res.ok true ↔ (u ≠ "" ∨ v ≠ ""))) := by
  have hemp : ¬(sn = "" ∨ cn2 = "" ∨ sk = "") := by simp [hsn, hcn, hsk]
  have hname : ¬(a.cluster_name.length > 63 - 2 - 6 - 3) := by omega
  have hws : wsBody env =
      (Res.ok (), [Event.call Call.ensureInfra, Event.call Call.ensureK8sCluster,
                   Event.call Call.ensureServices]) := by
    simp [wsBody, wcall, hinfra, h9, hk8s, h3k, hpv, hsvc]
  have hres : (setupRun env a).1 =
      (statusRun env a.cluster_name a.resource_group).1 := by
    cases hiu2 : a.is_update
    · have hce2 : ce = false := hce hiu2
      subst hce2
      have hq : quotaBlock env false =
          (Res.ok (), [Event.call Call.verifyEnoughCores]) := by
        simp [quotaBlock, wcall, h4]
      rw [setupRun, if_neg hwr]
      simp [wcall, h1, h2, hq, check_cluster_name_length, hname, wthen, h5, h6,
        hiu2, setupMain, h7, tryBlock, hrg, hbk, hemp, hrp, withWorkspace, hws]
    · have hq : quotaBlock env true =
          (Res.ok (), [Event.call Call.getCurrentCoreCount,
                       Event.call Call.verifyEnoughCores]) := by
        simp [quotaBlock, wcall, h3, h4]
      rw [setupRun, if_neg hwr]
      simp [wcall, h1, h2, hq, check_cluster_name_length, hname, wthen, h5, h6,
        hiu2, setupMain, h7, tryBlock, hbk, hemp, hrp, withWorkspace, hws]
  refine ⟨hres, ?_⟩
  intro hw ctx u v hr hc hu hv
  rw [hres, statusRun, if_neg (by simp [hw])]
  by_cases hu0 : u = ""
  · by_cases hv0 : v = "" <;>
      simp [wthen, wcall, hr, hc, hu, hv, hu0, hv0, statusFinish]
  · simp [wthen, wcall, hr, hc, hu, hu0, statusFinish]

/-- C10 witness: a fully successful fresh create whose status discovery
succeeds through live ingress. -/
theorem C10_witness :
    envOk.ensure_services = Res.ok ()
    ∧ envOk.url_from_ingress = Res.ok "https://cluster.example.com"
    ∧ (setupRun envOk argsOk).1 = (statusRun envOk "farm" "rg").1
    ∧ ((setupRun envOk argsOk).1 = Res.ok true ↔
        (("https://cluster.example.com" : String) ≠ "" ∨ ("" : String) ≠ "")) :=
  ⟨by decide, by decide,
   (C10_setup_result_is_status envOk argsOk "user" "sub" "ten" (4, 2) true false
     "st" "ct" "key" "pvc" infraOutputs k8sOutputs
     ["ctx", "1.2.3.4", "fqdn", "dns", "kv", "app", "key", "stacct", "uc"]
     ["ctx", "pool", "fqdn"] (by decide) (by decide) (by decide) (by decide)
     (by decide) (by decide) (by decide) (by decide) (by decide) (by decide)
     (by decide) (by decide) (by decide) (by decide) (by decide) (by decide)
     (by decide) (by decide) (by decide) (by decide) (by decide) (by decide)).1,
   (C10_setup_result_is_status envOk argsOk "user" "sub" "ten" (4, 2) true false
     "st" "ct" "key" "pvc" infraOutputs k8sOutputs
     ["ctx", "1.2.3.4", "fqdn", "dns", "kv", "app", "key", "stacct", "uc"]
     ["ctx", "pool", "fqdn"] (by decide) (by decide) (by decide) (by decide)
     (by decide) (by decide) (by decide) (by decide) (by decide) (by decide)
     (by decide) (by decide) (by decide) (by decide) (by decide) (by decide)
     (by decide) (by decide) (by decide) (by decide) (by decide) (by decide)).2
     (by decide) "ctx" "https://cluster.example.com" "" (by decide) (by decide)
     (by decide) (by decide)⟩
